import Mathlib

/-!
Verification of the NEO impact-effect modeling and overlay-generation
pipeline of `nasa.py`.

The numeric impact formulas (`calculate_impact_effects`, lines 29-51) are
embedded over the real numbers, with the Python float exponentiations
`** 0.43` and `** 0.33` rendered as real `rpow` and the integer
exponents `** 3` / `** 2` as monoid powers.  Record collections and the
ranking, selection and site-assignment logic of `create_impact_map`
(lines 53-180) are embedded over exact rationals so that sorting and
filtering stay decidable.
-/

namespace Impact

open List

/-- Validated near-Earth object, with the fields extracted at lines
88-92 of `create_impact_map`.  Numeric fields are carried as exact
rationals. -/
structure NearEarthObject where
  name : String
  diameter_km : ℚ
  velocity_kmps : ℚ
  miss_distance_km : ℚ
  hazardous : Bool
deriving DecidableEq, Repr

/-- Result record of `calculate_impact_effects` (the dict returned at
lines 45-51). -/
@[ext]
structure ImpactEffects where
  crater_diameter : ℝ
  energy_megatons : ℝ
  severe_damage_radius : ℝ
  moderate_damage_radius : ℝ
  light_damage_radius : ℝ

/-- Embedding of line 36: `mass = (4/3) * math.pi * (diameter_km * 500) ** 3 * 2500`. -/
noncomputable def mass (diameter_km : ℝ) : ℝ :=
  (4 / 3) * Real.pi * (diameter_km * 500) ^ (3 : ℕ) * 2500

/-- Embedding of line 37: `energy_joules = 0.5 * mass * (velocity_kmps * 1000) ** 2`. -/
noncomputable def energy_joules (diameter_km velocity_kmps : ℝ) : ℝ :=
  0.5 * mass diameter_km * (velocity_kmps * 1000) ^ (2 : ℕ)

/-- Embedding of line 38: `energy_megatons = energy_joules / (4.184e15)`. -/
noncomputable def energy_megatons (diameter_km velocity_kmps : ℝ) : ℝ :=
  energy_joules diameter_km velocity_kmps / 4.184e15

/-- Embedding of `calculate_impact_effects` (nasa.py lines 29-51). -/
noncomputable def calculate_impact_effects (diameter_km velocity_kmps : ℝ) : ImpactEffects :=
  { crater_diameter := diameter_km * 20 * (velocity_kmps / 17) ^ (0.43 : ℝ)
    energy_megatons := energy_megatons diameter_km velocity_kmps
    severe_damage_radius := energy_megatons diameter_km velocity_kmps ^ (0.33 : ℝ) * 2.2
    moderate_damage_radius := energy_megatons diameter_km velocity_kmps ^ (0.33 : ℝ) * 5.5
    light_damage_radius := energy_megatons diameter_km velocity_kmps ^ (0.33 : ℝ) * 15 }

/-- Energy formula exactly as the specification words it in claim C1:
`(0.5 * (4/3) * pi * (diameter_km * 500) ** 3 * 2500 * (velocity_kmps * 1000) ** 2) / 4.184e15`. -/
noncomputable def spec_energy_megatons (diameter_km velocity_kmps : ℝ) : ℝ :=
  (0.5 * (4 / 3) * Real.pi * (diameter_km * 500) ^ (3 : ℕ) * 2500
    * (velocity_kmps * 1000) ^ (2 : ℕ)) / 4.184e15

/-- Impact effects exactly as the specification words them (section 4.2):
crater formula, the energy chain collapsed into one expression, and the
three damage radii as `energy_megatons ** 0.33` scaled by 2.2, 5.5, 15. -/
noncomputable def spec_impact_effects (diameter_km velocity_kmps : ℝ) : ImpactEffects :=
  { crater_diameter := diameter_km * 20 * (velocity_kmps / 17) ^ (0.43 : ℝ)
    energy_megatons := spec_energy_megatons diameter_km velocity_kmps
    severe_damage_radius := spec_energy_megatons diameter_km velocity_kmps ^ (0.33 : ℝ) * 2.2
    moderate_damage_radius := spec_energy_megatons diameter_km velocity_kmps ^ (0.33 : ℝ) * 5.5
    light_damage_radius := spec_energy_megatons diameter_km velocity_kmps ^ (0.33 : ℝ) * 15 }

/-- Boolean comparison used by the ranking sort at line 68: sorting by
`estimated_diameter_max` with `reverse=True` is the stable sort that puts
`a` before `b` exactly when `b`'s diameter is at most `a`'s. -/
def neoGE (a b : NearEarthObject) : Bool :=
  decide (b.diameter_km ≤ a.diameter_km)

/-- Embedding of lines 68-69: stable sort of all NEOs by diameter
descending, then the first 10 (`all_neos[:10]`). -/
def rank_neos (neos : List NearEarthObject) : List NearEarthObject :=
  (neos.mergeSort neoGE).take 10

/-- Embedding of the fixed display location list at lines 74-85
(NYC, LA, London, Tokyo, Paris, Sydney, Mexico City, Moscow, Delhi,
Beijing, in that order). -/
def locations : List (ℚ × ℚ) :=
  [(40.7128, -74.0060),
   (34.0522, -118.2437),
   (51.5074, -0.1278),
   (35.6762, 139.6503),
   (48.8566, 2.3522),
   (-33.8688, 151.2093),
   (19.4326, -99.1332),
   (55.7558, 37.6173),
   (28.6139, 77.2090),
   (39.9042, 116.4074)]

/-- Embedding of line 98: `lat, lon = locations[idx % len(locations)]`. -/
def site_for (rank : ℕ) : ℚ × ℚ :=
  locations.getD (rank % locations.length) (0, 0)

/-- Data shown in the popup block built at lines 101-116; the raw values
are kept (string formatting of floats is rendering, out of the model). -/
structure PopupData where
  name : String
  diameter_km : ℚ
  velocity_kmps : ℚ
  miss_distance_km : ℚ
  hazardous : Bool
  energy_megatons : ℝ
  crater_diameter : ℝ
  severe_damage_radius : ℝ
  moderate_damage_radius : ℝ
  light_damage_radius : ℝ

/-- Popup content for one NEO and its computed effects (lines 101-116). -/
noncomputable def popup_data (neo : NearEarthObject) (effects : ImpactEffects) : PopupData :=
  { name := neo.name
    diameter_km := neo.diameter_km
    velocity_kmps := neo.velocity_kmps
    miss_distance_km := neo.miss_distance_km
    hazardous := neo.hazardous
    energy_megatons := effects.energy_megatons
    crater_diameter := effects.crater_diameter
    severe_damage_radius := effects.severe_damage_radius
    moderate_damage_radius := effects.moderate_damage_radius
    light_damage_radius := effects.light_damage_radius }

/-- Shape tag of an overlay descriptor. -/
inductive Shape where
  | circle
  | marker
deriving DecidableEq, Repr

/-- Rendering-agnostic overlay descriptor: a `folium.Circle` call
(center, radius in meters, stroke color, fill color, fill opacity,
optional popup, tooltip) or a `folium.Marker` call (center, popup, icon
color, tooltip). -/
inductive OverlaySpec where
  | circle (center : ℚ × ℚ) (radius_meters : ℝ) (color fillColor : String)
      (fillOpacity : ℚ) (popup : Option PopupData) (tooltip : String)
  | marker (center : ℚ × ℚ) (popup : PopupData) (iconColor : String) (tooltip : String)

/-- Shape tag of an overlay descriptor. -/
def OverlaySpec.shape : OverlaySpec → Shape
  | .circle _ _ _ _ _ _ _ => .circle
  | .marker _ _ _ _ => .marker

/-- Center of an overlay descriptor. -/
def OverlaySpec.center : OverlaySpec → ℚ × ℚ
  | .circle c _ _ _ _ _ _ => c
  | .marker c _ _ _ => c

/-- Radius in meters of a circle descriptor, `none` for a marker. -/
def OverlaySpec.radiusMeters : OverlaySpec → Option ℝ
  | .circle _ r _ _ _ _ _ => some r
  | .marker _ _ _ _ => none

/-- Icon color of a marker descriptor, `none` for a circle. -/
def OverlaySpec.iconColor : OverlaySpec → Option String
  | .circle _ _ _ _ _ _ _ => none
  | .marker _ _ c _ => some c

/-- Embedding of the loop body at lines 94-169: the five overlays
produced for the NEO at rank `idx` (crater circle, severe circle,
moderate circle, light circle, marker). -/
noncomputable def build_overlays (idx : ℕ) (neo : NearEarthObject) : List OverlaySpec :=
  let effects := calculate_impact_effects neo.diameter_km neo.velocity_kmps
  let site := site_for idx
  let popup := popup_data neo effects
  [.circle site (effects.crater_diameter * 500) "darkred" "red" 0.7 (some popup)
      (neo.name ++ " - Crater"),
   .circle site (effects.severe_damage_radius * 1000) "orangered" "orange" 0.4 none
      "Severe Damage Zone",
   .circle site (effects.moderate_damage_radius * 1000) "yellow" "yellow" 0.2 none
      "Moderate Damage Zone",
   .circle site (effects.light_damage_radius * 1000) "lightblue" "lightblue" 0.1 none
      "Light Damage Zone",
   .marker site popup (if neo.hazardous then "red" else "blue") neo.name]

/-- Error kinds of the Normalizer contract (spec section 4.1). -/
inductive NormalizeError where
  | missingField (field : String)
  | validation (msg : String)
deriving DecidableEq, Repr

/-- First element of `close_approach_data` in a raw record; each nested
leaf is optional so that an absent key is representable. -/
structure RawCloseApproach where
  relative_velocity_kmps : Option ℚ
  miss_distance_km : Option ℚ
deriving DecidableEq, Repr

/-- Raw heterogeneous record as consumed from the feed (spec section 6):
each required leaf is optional so that an absent key is representable,
and `close_approach_data` is a (possibly empty) list. -/
structure RawRecord where
  name : Option String
  estimated_diameter_max_km : Option ℚ
  close_approach_data : List RawCloseApproach
  is_potentially_hazardous_asteroid : Option Bool
deriving DecidableEq, Repr

/-- Modelled from the spec: the NEO Normalizer component (section 4.1) is
not present in `src/nasa.py` — the original code reads the nested raw
fields without any guard (lines 88-92, acknowledged as a gap in sections
7 and 9).  Per the spec it extracts the five required fields, fails with
`MissingFieldError` when any required key is absent, fails with
`ValidationError` when `diameter_km <= 0` or `velocity_kmps <= 0`, and
otherwise returns the validated `NearEarthObject`. -/
def normalize (r : RawRecord) : Except NormalizeError NearEarthObject :=
  match r.name with
  | none => .error (.missingField "name")
  | some name =>
    match r.estimated_diameter_max_km with
    | none => .error (.missingField "estimated_diameter.kilometers.estimated_diameter_max")
    | some diameter_km =>
      match r.close_approach_data with
      | [] => .error (.missingField "close_approach_data[0]")
      | ca :: _ =>
        match ca.relative_velocity_kmps with
        | none =>
            .error (.missingField "close_approach_data[0].relative_velocity.kilometers_per_second")
        | some velocity_kmps =>
          match ca.miss_distance_km with
          | none => .error (.missingField "close_approach_data[0].miss_distance.kilometers")
          | some miss_distance_km =>
            match r.is_potentially_hazardous_asteroid with
            | none => .error (.missingField "is_potentially_hazardous_asteroid")
            | some hazardous =>
              if diameter_km ≤ 0 then .error (.validation "diameter_km must be positive")
              else if velocity_kmps ≤ 0 then .error (.validation "velocity_kmps must be positive")
              else .ok { name := name, diameter_km := diameter_km, velocity_kmps := velocity_kmps,
                         miss_distance_km := miss_distance_km, hazardous := hazardous }

/-- Presence of every key the Normalizer requires. -/
def requiredFieldsPresent (r : RawRecord) : Prop :=
  r.name.isSome ∧ r.estimated_diameter_max_km.isSome ∧
    (∃ ca rest, r.close_approach_data = ca :: rest ∧
      ca.relative_velocity_kmps.isSome ∧ ca.miss_distance_km.isSome) ∧
    r.is_potentially_hazardous_asteroid.isSome

/-- Input to `create_impact_map`: the `near_earth_objects` member is
`none` when the key is absent from the fetched mapping; otherwise it is
the list of per-date buckets of (already extracted) records. -/
structure NeoData where
  near_earth_objects : Option (List (String × List NearEarthObject))

/-- One line of the textual report printed by `create_impact_map`: the
no-data message of line 59, the count line of line 71, or one per-NEO
block of lines 172-178 with its raw numeric values. -/
inductive ReportLine where
  | noData
  | found (count : ℕ)
  | neoEntry (position : ℕ) (name : String) (diameter_km velocity_kmps : ℚ)
      (energy_megatons crater_diameter severe_damage_radius : ℝ) (hazardous : Bool)

/-- Per-NEO report block of lines 172-178 (position is `idx + 1`). -/
noncomputable def report_entry (idx : ℕ) (neo : NearEarthObject) : ReportLine :=
  let effects := calculate_impact_effects neo.diameter_km neo.velocity_kmps
  .neoEntry (idx + 1) neo.name neo.diameter_km neo.velocity_kmps
    effects.energy_megatons effects.crater_diameter effects.severe_damage_radius neo.hazardous

/-- Embedding of `create_impact_map` (lines 53-180): guard for missing
data, flatten the dated buckets, rank, then produce the overlay sequence
and the report lines. -/
noncomputable def create_impact_map (neo_data : Option NeoData) :
    List OverlaySpec × List ReportLine :=
  match neo_data with
  | none => ([], [.noData])
  | some data =>
    match data.near_earth_objects with
    | none => ([], [.noData])
    | some buckets =>
      let all_neos := buckets.flatMap Prod.snd
      let top_neos := rank_neos all_neos
      (top_neos.enum.flatMap (fun p => build_overlays p.1 p.2),
        .found all_neos.length :: top_neos.enum.map (fun p => report_entry p.1 p.2))

/-- C1: for every diameter and velocity the calculator returns exactly the
values the specification states: the crater formula, the collapsed energy
formula, and the damage radii `energy_megatons ** 0.33` times 2.2, 5.5, 15. -/
theorem calculate_impact_effects_matches_spec (d v : ℝ) :
    calculate_impact_effects d v = spec_impact_effects d v := by
  have hE : energy_megatons d v = spec_energy_megatons d v := by
    unfold energy_megatons energy_joules mass spec_energy_megatons
    ring
  unfold calculate_impact_effects spec_impact_effects
  rw [hE]

/-- C8: for diameter 0 and any velocity at least 0 the calculator is
well defined and every field of the result is exactly 0 (with the real
power `0 ^ 0.33 = 0`). -/
theorem zero_diameter_all_zero (v : ℝ) (hv : 0 ≤ v) :
    calculate_impact_effects 0 v =
      { crater_diameter := 0, energy_megatons := 0, severe_damage_radius := 0,
        moderate_damage_radius := 0, light_damage_radius := 0 } := by
  have hE : energy_megatons 0 v = 0 := by
    unfold energy_megatons energy_joules mass
    ring
  unfold calculate_impact_effects
  rw [hE, Real.zero_rpow (by norm_num)]
  ext <;> simp

/-- C8 witness: the zero-diameter theorem applied at velocity 17. -/
theorem zero_diameter_all_zero_witness :
    calculate_impact_effects 0 17 =
      { crater_diameter := 0, energy_megatons := 0, severe_damage_radius := 0,
        moderate_damage_radius := 0, light_damage_radius := 0 } :=
  zero_diameter_all_zero 17 (by norm_num)

/-- C6: for positive diameter and velocity, doubling the velocity strictly
increases the released energy in megatons, and doubling the diameter
multiplies it by exactly 8. -/
theorem energy_megatons_scaling (d v : ℝ) (hd : 0 < d) (hv : 0 < v) :
    (calculate_impact_effects d v).energy_megatons
        < (calculate_impact_effects d (2 * v)).energy_megatons ∧
    (calculate_impact_effects (2 * d) v).energy_megatons
        = 8 * (calculate_impact_effects d v).energy_megatons := by
  have hquad : energy_megatons d (2 * v) = 4 * energy_megatons d v := by
    unfold energy_megatons energy_joules mass
    ring
  have hpos : 0 < energy_megatons d v := by
    unfold energy_megatons energy_joules mass
    positivity
  refine ⟨?_, ?_⟩
  · show energy_megatons d v < energy_megatons d (2 * v)
    rw [hquad]
    linarith
  · show energy_megatons (2 * d) v = 8 * energy_megatons d v
    unfold energy_megatons energy_joules mass
    ring

/-- C6 witness: the scaling theorem applied at diameter 1 km, velocity 1 km/s. -/
theorem energy_megatons_scaling_witness :
    (calculate_impact_effects 1 1).energy_megatons
        < (calculate_impact_effects 1 (2 * 1)).energy_megatons ∧
    (calculate_impact_effects (2 * 1) 1).energy_megatons
        = 8 * (calculate_impact_effects 1 1).energy_megatons :=
  energy_megatons_scaling 1 1 one_pos one_pos

/-- C10: with nonnegative inputs the three damage radii are ordered
severe at most moderate at most light, strictly so once the energy is
positive, since all three scale the same nonnegative base
`energy_megatons ^ 0.33` by 2.2, 5.5 and 15. -/
theorem damage_radius_ordering (d v : ℝ) (hd : 0 ≤ d) (hv : 0 ≤ v) :
    ((calculate_impact_effects d v).severe_damage_radius
        ≤ (calculate_impact_effects d v).moderate_damage_radius ∧
      (calculate_impact_effects d v).moderate_damage_radius
        ≤ (calculate_impact_effects d v).light_damage_radius) ∧
    (0 < (calculate_impact_effects d v).energy_megatons →
      (calculate_impact_effects d v).severe_damage_radius
          < (calculate_impact_effects d v).moderate_damage_radius ∧
        (calculate_impact_effects d v).moderate_damage_radius
          < (calculate_impact_effects d v).light_damage_radius) := by
  have hE : 0 ≤ energy_megatons d v := by
    unfold energy_megatons energy_joules mass
    positivity
  have hb : 0 ≤ energy_megatons d v ^ (0.33 : ℝ) := Real.rpow_nonneg hE _
  constructor
  · constructor
    · show energy_megatons d v ^ (0.33 : ℝ) * 2.2 ≤ energy_megatons d v ^ (0.33 : ℝ) * 5.5
      nlinarith
    · show energy_megatons d v ^ (0.33 : ℝ) * 5.5 ≤ energy_megatons d v ^ (0.33 : ℝ) * 15
      nlinarith
  · intro hpos
    have hb2 : 0 < energy_megatons d v ^ (0.33 : ℝ) := Real.rpow_pos_of_pos hpos _
    constructor
    · show energy_megatons d v ^ (0.33 : ℝ) * 2.2 < energy_megatons d v ^ (0.33 : ℝ) * 5.5
      nlinarith
    · show energy_megatons d v ^ (0.33 : ℝ) * 5.5 < energy_megatons d v ^ (0.33 : ℝ) * 15
      nlinarith

/-- Transitivity of the ranking comparison. -/
theorem neoGE_trans : ∀ a b c : NearEarthObject, neoGE a b → neoGE b c → neoGE a c := by
  intro a b c h1 h2
  simp only [neoGE, decide_eq_true_eq] at *
  exact le_trans h2 h1

/-- Totality of the ranking comparison. -/
theorem neoGE_total : ∀ a b : NearEarthObject, neoGE a b || neoGE b a := by
  intro a b
  simp only [neoGE, Bool.or_eq_true, decide_eq_true_eq]
  exact le_total b.diameter_km a.diameter_km

/-- Stability of the ranking sort: the sub-sequence of NEOs with any one
fixed diameter is unchanged by the sort. -/
theorem mergeSort_neoGE_filter_eq (l : List NearEarthObject) (d : ℚ) :
    (l.mergeSort neoGE).filter (fun n => decide (n.diameter_km = d))
      = l.filter (fun n => decide (n.diameter_km = d)) := by
  have hmemc : ∀ n : NearEarthObject,
      (fun n => decide (n.diameter_km = d)) n = true → n.diameter_km = d := by
    intro n h
    simpa using h
  have hpw : (l.filter (fun n => decide (n.diameter_km = d))).Pairwise (neoGE · ·) := by
    apply List.pairwise_of_forall_mem_list
    intro a ha b hb
    have ha2 := (List.mem_filter.mp ha).2
    have hb2 := (List.mem_filter.mp hb).2
    simp only [neoGE, decide_eq_true_eq]
    rw [hmemc a ha2, hmemc b hb2]
  have h1 : l.filter (fun n => decide (n.diameter_km = d)) <+ l.mergeSort neoGE :=
    List.sublist_mergeSort neoGE_trans neoGE_total hpw (List.filter_sublist l)
  have h2 : l.filter (fun n => decide (n.diameter_km = d))
      <+ (l.mergeSort neoGE).filter (fun n => decide (n.diameter_km = d)) := by
    have h3 := h1.filter (fun n => decide (n.diameter_km = d))
    rwa [List.filter_eq_self.mpr (fun a ha => (List.mem_filter.mp ha).2)] at h3
  have hperm : (l.mergeSort neoGE).filter (fun n => decide (n.diameter_km = d))
      ~ l.filter (fun n => decide (n.diameter_km = d)) :=
    (List.mergeSort_perm l neoGE).filter _
  exact (h2.eq_of_length hperm.length_eq.symm).symm

/-- C2: the ranker keeps `min 10 L` elements, its output diameters are
non-increasing, and NEOs with equal diameter keep their relative input
order (the filtered equal-diameter sub-sequence of the output is a
sub-sequence of the input's). -/
theorem rank_neos_spec (l : List NearEarthObject) :
    (rank_neos l).length = min 10 l.length ∧
    (rank_neos l).Pairwise (fun a b => b.diameter_km ≤ a.diameter_km) ∧
    ∀ d : ℚ, (rank_neos l).filter (fun n => decide (n.diameter_km = d))
        <+ l.filter (fun n => decide (n.diameter_km = d)) := by
  refine ⟨?_, ?_, ?_⟩
  · unfold rank_neos
    rw [List.length_take, List.length_mergeSort]
  · have hs : (l.mergeSort neoGE).Pairwise (neoGE · ·) :=
      List.sorted_mergeSort neoGE_trans neoGE_total l
    have hsub : rank_neos l <+ l.mergeSort neoGE := List.take_sublist _ _
    exact (hs.sublist hsub).imp (by intro a b h; simpa [neoGE] using h)
  · intro d
    have h1 : (rank_neos l).filter (fun n => decide (n.diameter_km = d))
        <+ (l.mergeSort neoGE).filter (fun n => decide (n.diameter_km = d)) :=
      (List.take_sublist _ _).filter _
    rwa [mergeSort_neoGE_filter_eq] at h1

/-- C5: the site assigner has exactly 10 fixed locations, returns
`locations[rank mod 10]` for every rank, and is cyclic with period 10. -/
theorem site_for_spec :
    locations.length = 10 ∧
    (∀ rank : ℕ, site_for rank = locations.getD (rank % 10) (0, 0)) ∧
    (∀ rank : ℕ, site_for (rank + 10) = site_for rank) := by
  have hlen : locations.length = 10 := rfl
  refine ⟨hlen, ?_, ?_⟩
  · intro rank
    unfold site_for
    rw [hlen]
  · intro rank
    unfold site_for
    rw [hlen, Nat.add_mod_right]

/-- C4: for every rank and NEO the builder yields exactly five overlays in
the order crater circle, severe circle, moderate circle, light circle,
marker; all are centered on the assigned site; the circles' radii are the
crater diameter times 500 and the three damage radii times 1000; and the
marker icon is red exactly when the NEO is hazardous, blue otherwise. -/
theorem build_overlays_spec (idx : ℕ) (neo : NearEarthObject) :
    (build_overlays idx neo).length = 5 ∧
    (build_overlays idx neo).map OverlaySpec.shape
        = [.circle, .circle, .circle, .circle, .marker] ∧
    (build_overlays idx neo).map OverlaySpec.center
        = [site_for idx, site_for idx, site_for idx, site_for idx, site_for idx] ∧
    (build_overlays idx neo).map OverlaySpec.radiusMeters
        = [some ((calculate_impact_effects neo.diameter_km neo.velocity_kmps).crater_diameter
              * 500),
           some ((calculate_impact_effects neo.diameter_km neo.velocity_kmps).severe_damage_radius
              * 1000),
           some ((calculate_impact_effects neo.diameter_km
              neo.velocity_kmps).moderate_damage_radius * 1000),
           some ((calculate_impact_effects neo.diameter_km neo.velocity_kmps).light_damage_radius
              * 1000),
           none] ∧
    (build_overlays idx neo).map OverlaySpec.iconColor
        = [none, none, none, none, some (if neo.hazardous then "red" else "blue")] :=
  ⟨rfl, rfl, rfl, rfl, rfl⟩

/-- C3: the Normalizer fails with a `MissingFieldError` when any required
key is absent; on a fully present record it fails with a
`ValidationError` when the diameter or the velocity is nonpositive and
otherwise returns the validated `NearEarthObject`. -/
theorem normalize_spec (r : RawRecord) :
    (¬ requiredFieldsPresent r → ∃ f, normalize r = .error (.missingField f)) ∧
    (∀ (name : String) (d : ℚ) (ca : RawCloseApproach) (rest : List RawCloseApproach)
        (v miss : ℚ) (haz : Bool),
      r = { name := some name, estimated_diameter_max_km := some d,
            close_approach_data := ca :: rest,
            is_potentially_hazardous_asteroid := some haz } →
      ca.relative_velocity_kmps = some v → ca.miss_distance_km = some miss →
      ((d ≤ 0 ∨ v ≤ 0) → ∃ m, normalize r = .error (.validation m)) ∧
      (0 < d → 0 < v →
        normalize r = .ok { name := name, diameter_km := d, velocity_kmps := v,
                            miss_distance_km := miss, hazardous := haz })) := by
  constructor
  · intro hmiss
    rcases r with ⟨nameO, diaO, caL, hazO⟩
    rcases nameO with _ | name
    · exact ⟨"name", rfl⟩
    rcases diaO with _ | d
    · exact ⟨"estimated_diameter.kilometers.estimated_diameter_max", rfl⟩
    rcases caL with _ | ⟨⟨vO, mO⟩, rest⟩
    · exact ⟨"close_approach_data[0]", rfl⟩
    rcases vO with _ | v
    · exact ⟨"close_approach_data[0].relative_velocity.kilometers_per_second", rfl⟩
    rcases mO with _ | miss
    · exact ⟨"close_approach_data[0].miss_distance.kilometers", rfl⟩
    rcases hazO with _ | haz
    · exact ⟨"is_potentially_hazardous_asteroid", rfl⟩
    · exact absurd ⟨rfl, rfl, ⟨⟨some v, some miss⟩, rest, rfl, rfl, rfl⟩, rfl⟩ hmiss
  · rintro name d ⟨vO, mO⟩ rest v miss haz rfl hv hm
    simp only at hv hm
    subst hv
    subst hm
    constructor
    · rintro (hd | hv0)
      · exact ⟨"diameter_km must be positive", by simp [normalize, hd]⟩
      · rcases le_or_lt d 0 with hd | hd
        · exact ⟨"diameter_km must be positive", by simp [normalize, hd]⟩
        · exact ⟨"velocity_kmps must be positive", by simp [normalize, not_le.mpr hd, hv0]⟩
    · intro hd hv2
      simp [normalize, not_le.mpr hd, not_le.mpr hv2]

/-- C3 witness: a fully present, valid record normalizes to the expected
`NearEarthObject`. -/
theorem normalize_spec_witness :
    normalize { name := some "a", estimated_diameter_max_km := some 1,
                close_approach_data := [{ relative_velocity_kmps := some 1,
                                          miss_distance_km := some 0 }],
                is_potentially_hazardous_asteroid := some false }
      = .ok { name := "a", diameter_km := 1, velocity_kmps := 1,
              miss_distance_km := 0, hazardous := false } :=
  ((normalize_spec { name := some "a", estimated_diameter_max_km := some 1,
                     close_approach_data := [{ relative_velocity_kmps := some 1,
                                               miss_distance_km := some 0 }],
                     is_potentially_hazardous_asteroid := some false }).2
      "a" 1 { relative_velocity_kmps := some 1, miss_distance_km := some 0 } [] 1 0 false
      rfl rfl rfl).2 one_pos one_pos

/-- C7 counterexample: when the `near_earth_objects` key is missing the
report is the single no-data line, which does not state a zero count of
NEOs found. -/
theorem empty_input_claim_counterexample :
    ¬ ReportLine.found 0 ∈ (create_impact_map none).2 := by
  intro h
  simp [create_impact_map] at h

/-- C7 amended: an empty or missing `near_earth_objects` set yields zero
overlays; the report states zero NEOs found when the set is present but
empty, and is the no-data message when the input or the key is missing. -/
theorem empty_input_behavior :
    (∀ nd : Option NeoData,
        (nd = none ∨ nd = some { near_earth_objects := none }) →
        create_impact_map nd = ([], [.noData])) ∧
    (∀ buckets : List (String × List NearEarthObject),
        buckets.flatMap Prod.snd = [] →
        create_impact_map (some { near_earth_objects := some buckets })
          = ([], [.found 0])) := by
  constructor
  · rintro nd (rfl | rfl) <;> rfl
  · intro buckets h
    simp [create_impact_map, rank_neos, h]

/-- C7 witness: the amended theorem at the empty bucket list. -/
theorem empty_input_behavior_witness :
    create_impact_map (some { near_earth_objects := some [] }) = ([], [.found 0]) :=
  empty_input_behavior.2 [] rfl

/-- C9: the pipeline is deterministic: two runs on identical input give
identical overlay descriptor sequences and identical report lines. -/
theorem create_impact_map_deterministic (x y : Option NeoData) (h : x = y) :
    (create_impact_map x).1 = (create_impact_map y).1 ∧
    (create_impact_map x).2 = (create_impact_map y).2 := by
  rw [h]
  exact ⟨rfl, rfl⟩

/-- C9 witness: determinism at a concrete input. -/
theorem create_impact_map_deterministic_witness :
    (create_impact_map none).1 = (create_impact_map none).1 ∧
    (create_impact_map none).2 = (create_impact_map none).2 :=
  create_impact_map_deterministic none none rfl

/-- C10 witness: the ordering theorem applied at diameter 1 km, velocity 1 km/s. -/
theorem damage_radius_ordering_witness :
    (calculate_impact_effects 1 1).severe_damage_radius
        ≤ (calculate_impact_effects 1 1).moderate_damage_radius ∧
    (calculate_impact_effects 1 1).moderate_damage_radius
        ≤ (calculate_impact_effects 1 1).light_damage_radius :=
  (damage_radius_ordering 1 1 (by norm_num) (by norm_num)).1

end Impact
